import Mathlib

/-!
Verification development for the media process lifecycle manager
(`FFmpegService`, file `src/unnamed/part_002`) of the cctv-monitor-api
repository.

The manager is embedded shallowly:

* `StreamInfo` mirrors the `StreamInfo` interface (the `process` handle is
  represented by the session's index in an allocation heap together with the
  observable process flags `killed` / `exited`; `startTime` is the spawn
  ordinal, standing in for the wall-clock `Date`).
* `FFmpegState` holds the two registries (`activeStreams`,
  `recordingProcesses` — JavaScript `Map`s become association lists that
  preserve insertion order, values being heap indices so that the aliasing of
  session objects captured by event handlers is modelled faithfully), the
  heap of all session records ever allocated, the log of kill signals sent,
  and the set of existing output directories.
* Each method of the service becomes a state-transition function; the
  asynchronous event handlers wired in `startHLSStream` become transitions
  fired by explicit events (`Ev`).  A stderr `data` chunk is abstracted to
  the boolean "does this chunk contain the start marker `Opening` /
  `Stream #`" that is all the handler inspects.
* `generateThumbnail` and `testStream` are self-contained promise machines
  and get their own small state types.
-/

namespace CCTV

/-! ## Association-list and indexed-update machinery -/

/-- Indexed update, the heap analogue of mutating the object at an index. -/
def updAt {α : Type} : List α → Nat → α → List α
  | [], _, _ => []
  | _ :: tl, 0, x => x :: tl
  | hd :: tl, n + 1, x => hd :: updAt tl n x

/-- Lookup in an association list (JavaScript `Map.get`). -/
def alookup : List (String × Nat) → String → Option Nat
  | [], _ => none
  | (k, v) :: tl, key => if k = key then some v else alookup tl key

/-- Insert-or-replace in an association list, preserving insertion order
(JavaScript `Map.set`). -/
def aset : List (String × Nat) → String → Nat → List (String × Nat)
  | [], key, v => [(key, v)]
  | (k, v') :: tl, key, v =>
    if k = key then (key, v) :: tl else (k, v') :: aset tl key v

/-- Removal from an association list (JavaScript `Map.delete`). -/
def aerase : List (String × Nat) → String → List (String × Nat)
  | [], _ => []
  | (k, v) :: tl, key =>
    if k = key then aerase tl key else (k, v) :: aerase tl key

/-- Index access into the heap (self-contained so that library `simp`
normal forms do not interfere). -/
def nth {α : Type} : List α → Nat → Option α
  | [], _ => none
  | hd :: _, 0 => some hd
  | _ :: tl, n + 1 => nth tl n

theorem updAt_length {α : Type} (l : List α) (i : Nat) (x : α) :
    (updAt l i x).length = l.length := by
  induction l generalizing i with
  | nil => rfl
  | cons hd tl ih =>
    cases i with
    | zero => rfl
    | succ n => simp [updAt, ih]

theorem nth_updAt_self {α : Type} (l : List α) (i : Nat) (x : α)
    (h : i < l.length) : nth (updAt l i x) i = some x := by
  induction l generalizing i with
  | nil => simp at h
  | cons hd tl ih =>
    cases i with
    | zero => rfl
    | succ n =>
      simp only [updAt, nth]
      exact ih n (by simp at h; omega)

theorem nth_updAt_other {α : Type} (l : List α) (i j : Nat) (x : α)
    (h : i ≠ j) : nth (updAt l i x) j = nth l j := by
  induction l generalizing i j with
  | nil => cases i <;> rfl
  | cons hd tl ih =>
    cases i with
    | zero =>
      cases j with
      | zero => exact absurd rfl h
      | succ m => rfl
    | succ n =>
      cases j with
      | zero => rfl
      | succ m =>
        simp only [updAt, nth]
        exact ih n m (fun hnm => h (by rw [hnm]))

theorem nth_some_lt {α : Type} (l : List α) (i : Nat) (x : α)
    (h : nth l i = some x) : i < l.length := by
  induction l generalizing i with
  | nil => cases i <;> simp [nth] at h
  | cons hd tl ih =>
    cases i with
    | zero => simp
    | succ n =>
      simp only [nth] at h
      exact Nat.succ_lt_succ (ih n h)

theorem nth_append_left {α : Type} (l : List α) (x : α) (i : Nat)
    (h : i < l.length) : nth (l ++ [x]) i = nth l i := by
  induction l generalizing i with
  | nil => simp at h
  | cons hd tl ih =>
    cases i with
    | zero => rfl
    | succ n =>
      simp only [List.cons_append, nth]
      exact ih n (by simp at h; omega)

theorem nth_append_length {α : Type} (l : List α) (x : α) :
    nth (l ++ [x]) l.length = some x := by
  induction l with
  | nil => rfl
  | cons hd tl ih =>
    simp only [List.cons_append, List.length_cons, nth]
    exact ih

theorem alookup_aset_self (l : List (String × Nat)) (key : String) (v : Nat) :
    alookup (aset l key v) key = some v := by
  induction l with
  | nil => simp [aset, alookup]
  | cons hd tl ih =>
    by_cases h : hd.1 = key
    · simp [aset, h, alookup]
    · simp [aset, h, alookup, ih]

theorem alookup_aset_other (l : List (String × Nat)) (key key' : String)
    (v : Nat) (h : key' ≠ key) : alookup (aset l key v) key' = alookup l key' := by
  induction l with
  | nil => simp [aset, alookup, Ne.symm h]
  | cons hd tl ih =>
    obtain ⟨k, v'⟩ := hd
    by_cases hk : k = key
    · subst hk
      simp only [aset, if_pos rfl, alookup]
      rw [if_neg (Ne.symm h), if_neg (Ne.symm h)]
    · simp only [aset, if_neg hk, alookup]
      by_cases hk' : k = key'
      · rw [if_pos hk', if_pos hk']
      · rw [if_neg hk', if_neg hk', ih]

theorem alookup_aerase_other (l : List (String × Nat)) (key key' : String)
    (h : key' ≠ key) : alookup (aerase l key) key' = alookup l key' := by
  induction l with
  | nil => rfl
  | cons hd tl ih =>
    obtain ⟨k, v⟩ := hd
    simp only [aerase, alookup]
    by_cases hk : k = key
    · have hne : ¬ k = key' := by
        intro hh
        exact h (by rw [← hh, hk])
      rw [if_pos hk, ih, if_neg hne]
    · rw [if_neg hk]
      simp only [alookup]
      by_cases hk' : k = key'
      · rw [if_pos hk', if_pos hk']
      · rw [if_neg hk', if_neg hk', ih]

theorem alookup_mem (l : List (String × Nat)) (key : String) (v : Nat)
    (h : alookup l key = some v) : (key, v) ∈ l := by
  induction l with
  | nil => simp [alookup] at h
  | cons hd tl ih =>
    obtain ⟨k, v'⟩ := hd
    simp only [alookup] at h
    by_cases hk : k = key
    · rw [if_pos hk] at h
      have hv : v' = v := Option.some.inj h
      rw [← hk, ← hv]
      exact List.mem_cons_self _ _
    · rw [if_neg hk] at h
      exact List.mem_cons_of_mem _ (ih h)

/-! ## Data model (`StreamOptions`, `RecordingOptions`, `StreamInfo`) -/

/-- The four values of the `status` field of `StreamInfo`. -/
inductive StreamStatus where
  | starting
  | running
  | stopped
  | error
deriving DecidableEq, Repr

/-- Mirror of the `StreamOptions` interface.  Optional fields become
`Option`; the absent/falsy cases of the JavaScript truthiness tests are the
`none` cases. -/
structure StreamOptions where
  rtspUrl : String
  resolution : Option String := none
  bitrate : Option String := none
  framerate : Option Nat := none
  segment_time : Option Nat := none
  preset : Option String := none
deriving DecidableEq, Repr

/-- Mirror of the `RecordingOptions` interface. -/
structure RecordingOptions where
  rtspUrl : String
  outputPath : String
  duration : Option Nat := none
  format : Option String := none
  quality : Option String := none
deriving DecidableEq, Repr

/-- Mirror of the `StreamInfo` interface.  The live `ChildProcess` handle is
identified with the session's heap index, and its two observable flags are
inlined: `killed` is Node's `ChildProcess.killed` (a signal was successfully
delivered via `kill()`), `exited` records that the `close` event has fired.
`startTime` is the spawn ordinal (standing in for the `Date`). -/
structure StreamInfo where
  id : String
  rtspUrl : String
  status : StreamStatus
  startTime : Nat
  outputPath : String
  viewers : Nat
  killed : Bool
  exited : Bool
deriving DecidableEq, Repr

/-- Observable flags of a recording's `ChildProcess`. -/
structure RecProc where
  killed : Bool
  exited : Bool
deriving DecidableEq, Repr

/-- The signals the service sends. -/
inductive KillSig where
  | sigterm
  | sigkill
deriving DecidableEq, Repr

/-- The mutable state of the `FFmpegService` singleton.

`streams` is the allocation heap of every `StreamInfo` object ever created
(index = spawn order); `activeStreams` and `recordingProcesses` are the two
registries (`Map`s), holding heap indices; `kills` logs every `kill`
invocation on a stream process in order; `dirs` is the set of currently
existing per-stream output directories. -/
structure FFmpegState where
  streams : List StreamInfo
  activeStreams : List (String × Nat)
  recProcs : List RecProc
  recordingProcesses : List (String × Nat)
  kills : List (Nat × KillSig)
  dirs : List String
deriving DecidableEq, Repr

/-- The empty initial state of the service. -/
def initState : FFmpegState :=
  { streams := [], activeStreams := [], recProcs := [],
    recordingProcesses := [], kills := [], dirs := [] }

/-! ## Process Launcher: deterministic argument-vector construction -/

/-- JavaScript `Array.prototype.indexOf` (first index, `-1` when absent). -/
def jsIndexOf (l : List String) (x : String) : Int :=
  match l.findIdx? (fun y => y = x) with
  | some i => (i : Int)
  | none => -1

/-- JavaScript `Array.prototype.splice(i, 0, xs...)`: insert `xs` before
index `i` without deleting anything. -/
def spliceIns (l : List String) (i : Nat) (xs : List String) : List String :=
  l.take i ++ xs ++ l.drop i

/-- The HLS argument vector built in `startHLSStream` (lines 86-120): the
base vector followed by the three conditional `splice` insertions for
resolution, bitrate and framerate, each positioned by `indexOf` on a sibling
flag. -/
def hlsArgs (o : StreamOptions) (segmentPattern playlistPath : String) :
    List String :=
  let base : List String :=
    ["-i", o.rtspUrl,
     "-c:v", "libx264",
     "-preset", o.preset.getD "faster",
     "-tune", "zerolatency",
     "-g", "30",
     "-sc_threshold", "0",
     "-f", "hls",
     "-hls_time", toString (o.segment_time.getD 2),
     "-hls_list_size", "10",
     "-hls_flags", "delete_segments+split_by_time",
     "-hls_segment_filename", segmentPattern,
     playlistPath]
  let a1 := match o.resolution with
    | some r => spliceIns base (jsIndexOf base "-preset" + 2).toNat ["-s", r]
    | none => base
  let a2 := match o.bitrate with
    | some b =>
      let i := if jsIndexOf a1 "-s" ≠ -1 then jsIndexOf a1 "-s" + 2
               else jsIndexOf a1 "-preset" + 2
      spliceIns a1 i.toNat ["-b:v", b]
    | none => a1
  match o.framerate with
  | some f =>
    let i := if jsIndexOf a2 "-b:v" ≠ -1 then jsIndexOf a2 "-b:v" + 2
             else if jsIndexOf a2 "-s" ≠ -1 then jsIndexOf a2 "-s" + 2
             else jsIndexOf a2 "-preset" + 2
    spliceIns a2 i.toNat ["-r", toString f]
  | none => a2

/-- `getQualityCRF` (lines 462-470). -/
def getQualityCRF (quality : String) : String :=
  if quality = "low" then "28"
  else if quality = "medium" then "23"
  else if quality = "high" then "18"
  else if quality = "uhd" then "15"
  else "23"

/-- The recording argument vector built in `startRecording` (lines 249-263):
base vector, then `splice(-1, 0, '-t', duration)` when a duration is given
(inserted before the LAST element of the not-yet-pushed vector, i.e. before
the format value), then `push(outputPath)`. -/
def recordingArgs (o : RecordingOptions) : List String :=
  let base : List String :=
    ["-i", o.rtspUrl,
     "-c:v", "libx264",
     "-preset", "faster",
     "-crf", getQualityCRF (o.quality.getD "medium"),
     "-c:a", "aac",
     "-f", o.format.getD "mp4"]
  let withDur := match o.duration with
    | some d => spliceIns base (base.length - 1) ["-t", toString d]
    | none => base
  withDur ++ [o.outputPath]

/-- The thumbnail argument vector built in `generateThumbnail`
(lines 347-354). -/
def thumbnailArgs (rtspUrl outputPath : String) : List String :=
  ["-i", rtspUrl, "-vframes", "1", "-f", "image2", "-s", "320x240", "-y",
   outputPath]

/-- The probe argument vector built in `testStream` (lines 393-398). -/
def testStreamArgs (rtspUrl : String) : List String :=
  ["-i", rtspUrl, "-t", "1", "-f", "null", "-"]

/-! ## Stream Registry and Lifecycle Supervisor -/

/-- Result of the synchronous phase of `startHLSStream`: either the existing
session was shared (its output path is returned at once) or a fresh process
was spawned. -/
inductive AcqRes where
  | shared (outputPath : String)
  | spawnedNew (pid : Nat)
deriving DecidableEq, Repr

/-- `kill` semantics on a session's process: Node sets `killed` only when
the signal is delivered, which fails once the process has exited. -/
def killProc (s : StreamInfo) : StreamInfo :=
  if s.exited then s else { s with killed := true }

/-- Same for a recording's process. -/
def killRec (r : RecProc) : RecProc :=
  if r.exited then r else { r with killed := true }

/-- Spawn path of `startHLSStream` (lines 77-136): make the output
directory, spawn, build the fresh `StreamInfo` with `status = 'starting'`
and `viewers = 1`, and register it (replacing any previous binding of the
id). -/
def spawnStream (st : FFmpegState) (streamId : String) (o : StreamOptions) :
    FFmpegState × AcqRes :=
  let pid := st.streams.length
  let info : StreamInfo :=
    { id := streamId,
      rtspUrl := o.rtspUrl,
      status := StreamStatus.starting,
      startTime := pid,
      outputPath := "/streams/" ++ streamId ++ "/playlist.m3u8",
      viewers := 1,
      killed := false,
      exited := false }
  ({ st with
      streams := st.streams ++ [info],
      activeStreams := aset st.activeStreams streamId pid,
      dirs := if streamId ∈ st.dirs then st.dirs else streamId :: st.dirs },
   AcqRes.spawnedNew pid)

/-- Synchronous phase of `startHLSStream` (lines 64-136): share the session
only when an entry exists AND its status is `'running'` (line 70); in every
other case fall through to the spawn path. -/
def startHLSStream (st : FFmpegState) (streamId : String)
    (o : StreamOptions) : FFmpegState × AcqRes :=
  match alookup st.activeStreams streamId with
  | some pid =>
    match nth st.streams pid with
    | some s =>
      if s.status = StreamStatus.running then
        ({ st with
            streams := updAt st.streams pid { s with viewers := s.viewers + 1 } },
         AcqRes.shared s.outputPath)
      else spawnStream st streamId o
    | none => spawnStream st streamId o
  | none => spawnStream st streamId o

/-- Completion of the `startHLSStream` promise after the 3-second startup
wait (lines 172-179): resolve with the session's output path when the
playlist file exists, otherwise reject. -/
def startHLSStreamResult (st : FFmpegState) (pid : Nat)
    (playlistExists : Bool) : Except String String :=
  if playlistExists then
    match nth st.streams pid with
    | some s => Except.ok s.outputPath
    | none => Except.error "Failed to create HLS playlist"
  else Except.error "Failed to create HLS playlist"

/-- The stderr `data` handler (lines 142-152): whenever the chunk contains
the start marker (`Opening` / `Stream #`), set the captured session's status
to `'running'` — unconditionally, with no check of the current status. -/
def stderrStep (st : FFmpegState) (pid : Nat) (hasStartMarker : Bool) :
    FFmpegState :=
  if hasStartMarker then
    match nth st.streams pid with
    | some s =>
      { st with
          streams := updAt st.streams pid { s with status := StreamStatus.running } }
    | none => st
  else st

/-- The `close` handler (lines 154-163): record the exit, set the status
to `'stopped'` on exit code 0 and `'error'` otherwise.  The registry is NOT
touched. -/
def closeStep (st : FFmpegState) (pid : Nat) (code : Option Int) :
    FFmpegState :=
  match nth st.streams pid with
  | some s =>
    { st with
        streams := updAt st.streams pid
          { s with
              status := if code = some 0 then StreamStatus.stopped
                        else StreamStatus.error,
              exited := true } }
  | none => st

/-- The `error` (spawn failure) handler (lines 165-169): set the status to
`'error'`.  The registry is NOT touched. -/
def errorStep (st : FFmpegState) (pid : Nat) : FFmpegState :=
  match nth st.streams pid with
  | some s =>
    { st with
        streams := updAt st.streams pid { s with status := StreamStatus.error } }
  | none => st

/-- `stopStream` (lines 190-226): decrement the viewer count (floored at 0
by `Math.max`); when it reaches 0, send SIGTERM unless `killed` is already
set, mark the status `'stopped'` and delete the registry entry. -/
def stopStream (st : FFmpegState) (streamId : String) : FFmpegState × Bool :=
  match alookup st.activeStreams streamId with
  | none => (st, false)
  | some pid =>
    match nth st.streams pid with
    | none => (st, false)
    | some s =>
      let v := s.viewers - 1
      if v = 0 then
        let s2 :=
          if s.killed then { s with viewers := v, status := StreamStatus.stopped }
          else killProc { s with viewers := v, status := StreamStatus.stopped }
        ({ st with
            streams := updAt st.streams pid s2,
            activeStreams := aerase st.activeStreams streamId,
            kills := st.kills ++
              (if s.killed then [] else [(pid, KillSig.sigterm)]) },
         true)
      else
        ({ st with streams := updAt st.streams pid { s with viewers := v } },
         false)

/-- The delayed force-kill check scheduled by `stopStream` (lines 208-212):
send SIGKILL only if `process.killed` is still false. -/
def forceKillStep (st : FFmpegState) (pid : Nat) : FFmpegState :=
  match nth st.streams pid with
  | some s =>
    if s.killed then st
    else
      { st with
          streams := updAt st.streams pid (killProc s),
          kills := st.kills ++ [(pid, KillSig.sigkill)] }
  | none => st

/-- `getStreamInfo` (lines 329-331). -/
def getStreamInfo (st : FFmpegState) (streamId : String) : Option StreamInfo :=
  match alookup st.activeStreams streamId with
  | some pid => nth st.streams pid
  | none => none

/-- `getActiveStreams` (lines 336-338). -/
def getActiveStreams (st : FFmpegState) : List StreamInfo :=
  st.activeStreams.filterMap (fun p => nth st.streams p.2)

/-- One iteration of the stream loop of `cleanup` (lines 479-484): SIGTERM
the process unless `killed` is already set, then remove the stream's output
directory. -/
def cleanupStreamEntry (st : FFmpegState) (p : String × Nat) : FFmpegState :=
  let st1 :=
    match nth st.streams p.2 with
    | some s =>
      if s.killed then st
      else
        { st with
            streams := updAt st.streams p.2 (killProc s),
            kills := st.kills ++ [(p.2, KillSig.sigterm)] }
    | none => st
  { st1 with dirs := st1.dirs.filter (fun d => d ≠ p.1) }

/-- One iteration of the recording loop of `cleanup` (lines 488-492). -/
def cleanupRecEntry (st : FFmpegState) (p : String × Nat) : FFmpegState :=
  match nth st.recProcs p.2 with
  | some r =>
    if r.killed then st
    else { st with recProcs := updAt st.recProcs p.2 (killRec r) }
  | none => st

/-- `cleanup` (lines 475-494): signal and clean up every registered stream,
clear the stream registry, signal every registered recording, clear the
recording registry. -/
def cleanup (st : FFmpegState) : FFmpegState :=
  let st1 := st.activeStreams.foldl cleanupStreamEntry st
  let st2 := { st1 with activeStreams := [] }
  let st3 := st2.recordingProcesses.foldl cleanupRecEntry st2
  { st3 with recordingProcesses := [] }

/-- Events driving the manager: the externally callable operations plus the
asynchronous process events the Supervisor observes.  `stderr pid b` is a
stderr data chunk of process `pid`, `b` telling whether it contains the
start marker; `closed` / `failed` are the `close` / `error` events;
`killTimer` is the delayed SIGKILL check. -/
inductive Ev where
  | acq (streamId : String) (o : StreamOptions)
  | rel (streamId : String)
  | stderr (pid : Nat) (hasStartMarker : Bool)
  | closed (pid : Nat) (code : Option Int)
  | failed (pid : Nat)
  | killTimer (pid : Nat)
  | shutdown
deriving DecidableEq, Repr

/-- The manager's transition function. -/
def step (st : FFmpegState) (e : Ev) : FFmpegState :=
  match e with
  | Ev.acq streamId o => (startHLSStream st streamId o).1
  | Ev.rel streamId => (stopStream st streamId).1
  | Ev.stderr pid m => stderrStep st pid m
  | Ev.closed pid c => closeStep st pid c
  | Ev.failed pid => errorStep st pid
  | Ev.killTimer pid => forceKillStep st pid
  | Ev.shutdown => cleanup st

/-- Run a sequence of events. -/
def run (st : FFmpegState) (evs : List Ev) : FFmpegState :=
  evs.foldl step st

theorem run_append (st : FFmpegState) (l1 l2 : List Ev) :
    run st (l1 ++ l2) = run (run st l1) l2 :=
  List.foldl_append step st l1 l2

theorem run_cons (st : FFmpegState) (e : Ev) (l : List Ev) :
    run st (e :: l) = run (step st e) l := rfl

/-! ## `generateThumbnail` (lines 343-384) -/

deriving instance DecidableEq for Except

/-- State of one `generateThumbnail` promise and its process.  `settled` is
the promise's final value once resolved/rejected (later `resolve`/`reject`
calls are no-ops); `killCalls` counts `kill()` invocations; `spawnErrored`
records that the `error` event fired. -/
structure ThumbnailState where
  settled : Option (Except String String)
  killed : Bool
  exited : Bool
  spawnErrored : Bool
  killCalls : Nat
deriving DecidableEq, Repr

/-- Fresh thumbnail promise. -/
def thumbInit : ThumbnailState :=
  { settled := none, killed := false, exited := false, spawnErrored := false,
    killCalls := 0 }

/-- Events observable by `generateThumbnail`: process exit (with exit code
and whether the output file exists at that moment), spawn error, and the
10-second timer. -/
inductive ThumbEv where
  | closed (code : Option Int) (fileExists : Bool)
  | failed
  | timeout
deriving DecidableEq, Repr

/-- Transition function of `generateThumbnail` for output path `p`,
mirroring the three handlers of lines 359-378:
`close` resolves with `p` iff the code is 0 AND the file exists, otherwise
rejects; `error` rejects; the timer, if `killed` is still false, calls
`kill()` and then rejects. -/
def generateThumbnailStep (p : String) (st : ThumbnailState) (e : ThumbEv) :
    ThumbnailState :=
  match e with
  | ThumbEv.closed code fileExists =>
    let st1 := { st with exited := true }
    match st1.settled with
    | some _ => st1
    | none =>
      if code = some 0 ∧ fileExists = true then
        { st1 with settled := some (Except.ok p) }
      else
        { st1 with settled := some (Except.error "Thumbnail generation failed") }
  | ThumbEv.failed =>
    let st1 := { st with spawnErrored := true }
    match st1.settled with
    | some _ => st1
    | none => { st1 with settled := some (Except.error "spawn error") }
  | ThumbEv.timeout =>
    if st.killed then st
    else
      let st1 := { st with killCalls := st.killCalls + 1, killed := !st.exited }
      match st1.settled with
      | some _ => st1
      | none =>
        { st1 with settled := some (Except.error "Thumbnail generation timeout") }

/-- Run a sequence of thumbnail events. -/
def thumbRun (p : String) (st : ThumbnailState) (evs : List ThumbEv) :
    ThumbnailState :=
  evs.foldl (generateThumbnailStep p) st

/-! ## `testStream` (lines 389-442) -/

/-- State of one `testStream` promise and its probe process. -/
structure ProbeState where
  settled : Option Bool
  killed : Bool
  exited : Bool
  errored : Bool
  killCalls : Nat
deriving DecidableEq, Repr

/-- Fresh probe promise. -/
def probeInit : ProbeState :=
  { settled := none, killed := false, exited := false, errored := false,
    killCalls := 0 }

/-- Events observable by `testStream`: a stderr chunk (with the flag
"contains `Stream #` / `Video:` / `Audio:`"), process exit, process error,
and the timeout timer. -/
inductive ProbeEv where
  | stderrData (hasStreamMarker : Bool)
  | closed (code : Option Int)
  | failed
  | timeout
deriving DecidableEq, Repr

/-- Transition function of `testStream`, mirroring the handlers of lines
411-436: a marker chunk kills the process and resolves `true`; `close`
resolves `code === 0` when not yet resolved; `error` resolves `false`; the
timer kills the process when `killed` is still false and resolves
`false`. -/
def testStreamStep (st : ProbeState) (e : ProbeEv) : ProbeState :=
  match e with
  | ProbeEv.stderrData hasStreamMarker =>
    if hasStreamMarker then
      let st1 :=
        { st with
            killCalls := st.killCalls + 1,
            killed := st.killed || !st.exited }
      match st1.settled with
      | some _ => st1
      | none => { st1 with settled := some true }
    else st
  | ProbeEv.closed code =>
    let st1 := { st with exited := true }
    match st1.settled with
    | some _ => st1
    | none => { st1 with settled := some (decide (code = some 0)) }
  | ProbeEv.failed =>
    let st1 := { st with errored := true }
    match st1.settled with
    | some _ => st1
    | none => { st1 with settled := some false }
  | ProbeEv.timeout =>
    let st1 :=
      if st.killed then st
      else { st with killCalls := st.killCalls + 1, killed := !st.exited }
    match st1.settled with
    | some _ => st1
    | none => { st1 with settled := some false }

/-- Run a sequence of probe events. -/
def probeRun (st : ProbeState) (evs : List ProbeEv) : ProbeState :=
  evs.foldl testStreamStep st

/-! ## Concrete inputs used by counterexamples and witnesses -/

/-- A plain option bag with no optional encoding parameters. -/
def oA : StreamOptions := { rtspUrl := "rtsp://cam1" }

/-- The running shared session used by witnesses: the state reached from
`initState` by one acquire followed by a start marker, generalized over the
viewer count. -/
def sharedInfo (v : Nat) : StreamInfo :=
  { id := "cam1", rtspUrl := "rtsp://cam1", status := StreamStatus.running,
    startTime := 0, outputPath := "/streams/cam1/playlist.m3u8", viewers := v,
    killed := false, exited := false }

/-- Manager state with a single running session for `cam1` having `v`
viewers. -/
def midC1 (v : Nat) : FFmpegState :=
  { streams := [sharedInfo v], activeStreams := [("cam1", 0)], recProcs := [],
    recordingProcesses := [], kills := [], dirs := ["cam1"] }

/-- Final state of the shared-stream scenario: session stopped, killed once,
registry empty. -/
def finalC1 : FFmpegState :=
  { streams :=
      [{ id := "cam1", rtspUrl := "rtsp://cam1",
         status := StreamStatus.stopped, startTime := 0,
         outputPath := "/streams/cam1/playlist.m3u8", viewers := 0,
         killed := true, exited := false }],
    activeStreams := [], recProcs := [], recordingProcesses := [],
    kills := [(0, KillSig.sigterm)], dirs := ["cam1"] }

/-- A state holding a session for `cam1` that reached a terminal status by
itself (nonzero exit). -/
def stTerm : FFmpegState := run initState [Ev.acq "cam1" oA, Ev.closed 0 (some 1)]

/-- The session record inside `stTerm`. -/
def termInfo : StreamInfo :=
  { id := "cam1", rtspUrl := "rtsp://cam1", status := StreamStatus.error,
    startTime := 0, outputPath := "/streams/cam1/playlist.m3u8",
    viewers := 1, killed := false, exited := true }

/-! ## Helper lemmas about the step functions -/

theorem startHLSStream_running_eq (st : FFmpegState) (streamId : String)
    (o : StreamOptions) (pid : Nat) (s : StreamInfo)
    (h1 : alookup st.activeStreams streamId = some pid)
    (h2 : nth st.streams pid = some s)
    (h3 : s.status = StreamStatus.running) :
    startHLSStream st streamId o =
      ({ st with
          streams := updAt st.streams pid { s with viewers := s.viewers + 1 } },
       AcqRes.shared s.outputPath) := by
  simp only [startHLSStream, h1, h2]
  rw [if_pos h3]

theorem spawnStream_get (st : FFmpegState) (streamId : String)
    (o : StreamOptions) (pid : Nat) (s1 : StreamInfo)
    (h1 : nth st.streams pid = some s1) :
    nth (spawnStream st streamId o).1.streams pid = some s1 := by
  simp only [spawnStream]
  rw [nth_append_left _ _ _ (nth_some_lt _ _ _ h1)]
  exact h1

theorem stderrStep_active (st : FFmpegState) (pid : Nat) (m : Bool) :
    (stderrStep st pid m).activeStreams = st.activeStreams := by
  unfold stderrStep
  cases m with
  | false => rfl
  | true => cases h : nth st.streams pid <;> simp [h]

theorem closeStep_active (st : FFmpegState) (pid : Nat) (code : Option Int) :
    (closeStep st pid code).activeStreams = st.activeStreams := by
  unfold closeStep
  cases h : nth st.streams pid <;> simp [h]

theorem errorStep_active (st : FFmpegState) (pid : Nat) :
    (errorStep st pid).activeStreams = st.activeStreams := by
  unfold errorStep
  cases h : nth st.streams pid <;> simp [h]

theorem forceKillStep_active (st : FFmpegState) (pid : Nat) :
    (forceKillStep st pid).activeStreams = st.activeStreams := by
  unfold forceKillStep
  cases h : nth st.streams pid with
  | none => rfl
  | some s =>
    simp only [h]
    by_cases hk : s.killed <;> simp [hk]

theorem killProc_status (s : StreamInfo) : (killProc s).status = s.status := by
  unfold killProc
  by_cases h : s.exited <;> simp [h]

/-! Effect of one `cleanup` stream iteration on the session heap: every
session is left unchanged up to its `killed` flag being raised. -/

theorem cleanupStreamEntry_get (st : FFmpegState) (p : String × Nat)
    (pid : Nat) (s : StreamInfo) (h : nth st.streams pid = some s) :
    nth (cleanupStreamEntry st p).streams pid = some s ∨
    nth (cleanupStreamEntry st p).streams pid = some { s with killed := true } := by
  unfold cleanupStreamEntry
  cases ht : nth st.streams p.2 with
  | none => simp [ht, h]
  | some t =>
    simp only [ht]
    by_cases hk : t.killed
    · simp [hk, h]
    · simp only [hk, if_false, Bool.false_eq_true]
      by_cases hp : p.2 = pid
      · subst hp
        rw [ht] at h
        cases h
        unfold killProc
        by_cases he : s.exited
        · simp [he, nth_updAt_self _ _ _ (nth_some_lt _ _ _ ht)]
        · simp [he, nth_updAt_self _ _ _ (nth_some_lt _ _ _ ht)]
      · simp [nth_updAt_other _ _ _ _ hp, h]

theorem cleanupStreamEntry_fields (st : FFmpegState) (p : String × Nat) :
    (cleanupStreamEntry st p).activeStreams = st.activeStreams ∧
    (cleanupStreamEntry st p).recProcs = st.recProcs ∧
    (cleanupStreamEntry st p).recordingProcesses = st.recordingProcesses := by
  unfold cleanupStreamEntry
  cases ht : nth st.streams p.2 with
  | none => simp [ht]
  | some t =>
    simp only [ht]
    by_cases hk : t.killed <;> simp [hk]

theorem cleanupStreamEntry_dirs_sub (st : FFmpegState) (p : String × Nat)
    (d : String) (h : d ∈ (cleanupStreamEntry st p).dirs) : d ∈ st.dirs := by
  unfold cleanupStreamEntry at h
  cases ht : nth st.streams p.2 with
  | none =>
    simp only [ht, List.mem_filter] at h
    exact h.1
  | some t =>
    by_cases hk : t.killed
    · simp only [ht, hk, if_true, List.mem_filter] at h
      exact h.1
    · simp only [ht, hk, Bool.false_eq_true, if_false, List.mem_filter] at h
      exact h.1

theorem cleanupStreamEntry_dirs_own (st : FFmpegState) (p : String × Nat) :
    p.1 ∉ (cleanupStreamEntry st p).dirs := by
  unfold cleanupStreamEntry
  cases ht : nth st.streams p.2 with
  | none => simp [ht, List.mem_filter]
  | some t =>
    by_cases hk : t.killed <;> simp [ht, hk, List.mem_filter]

theorem foldStreams_get (l : List (String × Nat)) (st : FFmpegState)
    (pid : Nat) (s : StreamInfo) (h : nth st.streams pid = some s) :
    nth (l.foldl cleanupStreamEntry st).streams pid = some s ∨
    nth (l.foldl cleanupStreamEntry st).streams pid =
      some { s with killed := true } := by
  induction l generalizing st s with
  | nil => exact Or.inl h
  | cons hd tl ih =>
    simp only [List.foldl_cons]
    rcases cleanupStreamEntry_get st hd pid s h with h' | h'
    · exact ih _ _ h'
    · rcases ih _ _ h' with h'' | h''
      · exact Or.inr h''
      · exact Or.inr h''

theorem foldStreams_fields (l : List (String × Nat)) (st : FFmpegState) :
    (l.foldl cleanupStreamEntry st).activeStreams = st.activeStreams ∧
    (l.foldl cleanupStreamEntry st).recProcs = st.recProcs ∧
    (l.foldl cleanupStreamEntry st).recordingProcesses =
      st.recordingProcesses := by
  induction l generalizing st with
  | nil => exact ⟨rfl, rfl, rfl⟩
  | cons hd tl ih =>
    simp only [List.foldl_cons]
    have h1 := cleanupStreamEntry_fields st hd
    have h2 := ih (cleanupStreamEntry st hd)
    exact ⟨h1.1 ▸ h2.1, h1.2.1 ▸ h2.2.1, h1.2.2 ▸ h2.2.2⟩

theorem foldStreams_dirs_sub (l : List (String × Nat)) (st : FFmpegState)
    (d : String) (h : d ∈ (l.foldl cleanupStreamEntry st).dirs) : d ∈ st.dirs := by
  induction l generalizing st with
  | nil => exact h
  | cons hd tl ih =>
    simp only [List.foldl_cons] at h
    exact cleanupStreamEntry_dirs_sub st hd d (ih _ h)

theorem foldStreams_killed (l : List (String × Nat)) (st : FFmpegState)
    (streamId : String) (pid : Nat) (s : StreamInfo)
    (hmem : (streamId, pid) ∈ l) (h : nth st.streams pid = some s)
    (hex : s.exited = false) :
    ∃ s', nth (l.foldl cleanupStreamEntry st).streams pid = some s' ∧
      s'.killed = true := by
  induction l generalizing st s with
  | nil => simp at hmem
  | cons hd tl ih =>
    simp only [List.foldl_cons]
    rcases List.mem_cons.mp hmem with heq | htl
    · have hp2 : hd.2 = pid := by rw [← heq]
      have hafter :
          nth (cleanupStreamEntry st hd).streams pid =
            some { s with killed := true } ∨
          nth (cleanupStreamEntry st hd).streams pid = some s ∧
            s.killed = true := by
        unfold cleanupStreamEntry
        rw [hp2, h]
        by_cases hk : s.killed
        · simp [hk, h]
        · simp only [hk, if_false, Bool.false_eq_true]
          unfold killProc
          rw [hex]
          simp [nth_updAt_self _ _ _ (nth_some_lt _ _ _ h)]
      rcases hafter with h' | ⟨h', hk⟩
      · rcases foldStreams_get tl _ pid _ h' with h'' | h''
        · exact ⟨_, h'', rfl⟩
        · exact ⟨_, h'', rfl⟩
      · rcases foldStreams_get tl _ pid _ h' with h'' | h''
        · exact ⟨_, h'', hk⟩
        · exact ⟨_, h'', rfl⟩
    · rcases cleanupStreamEntry_get st hd pid s h with h' | h'
      · exact ih _ _ htl h' hex
      · exact ih _ _ htl h' hex

theorem foldStreams_dirs_out (l : List (String × Nat)) (st : FFmpegState)
    (streamId : String) (pid : Nat) (hmem : (streamId, pid) ∈ l) :
    streamId ∉ (l.foldl cleanupStreamEntry st).dirs := by
  induction l generalizing st with
  | nil => simp at hmem
  | cons hd tl ih =>
    simp only [List.foldl_cons]
    rcases List.mem_cons.mp hmem with heq | htl
    · have hp1 : hd.1 = streamId := by rw [← heq]
      intro hcontra
      have hmid := foldStreams_dirs_sub tl _ _ hcontra
      exact (hp1 ▸ cleanupStreamEntry_dirs_own st hd) hmid
    · exact ih _ htl

/-! Effect of the `cleanup` recording iterations. -/

theorem cleanupRecEntry_fields (st : FFmpegState) (p : String × Nat) :
    (cleanupRecEntry st p).streams = st.streams ∧
    (cleanupRecEntry st p).activeStreams = st.activeStreams ∧
    (cleanupRecEntry st p).recordingProcesses = st.recordingProcesses ∧
    (cleanupRecEntry st p).dirs = st.dirs := by
  unfold cleanupRecEntry
  cases ht : nth st.recProcs p.2 with
  | none => simp [ht]
  | some t =>
    simp only [ht]
    by_cases hk : t.killed <;> simp [hk]

theorem foldRecs_fields (l : List (String × Nat)) (st : FFmpegState) :
    (l.foldl cleanupRecEntry st).streams = st.streams ∧
    (l.foldl cleanupRecEntry st).activeStreams = st.activeStreams ∧
    (l.foldl cleanupRecEntry st).recordingProcesses = st.recordingProcesses ∧
    (l.foldl cleanupRecEntry st).dirs = st.dirs := by
  induction l generalizing st with
  | nil => exact ⟨rfl, rfl, rfl, rfl⟩
  | cons hd tl ih =>
    simp only [List.foldl_cons]
    have h1 := cleanupRecEntry_fields st hd
    have h2 := ih (cleanupRecEntry st hd)
    exact ⟨h1.1 ▸ h2.1, h1.2.1 ▸ h2.2.1, h1.2.2.1 ▸ h2.2.2.1,
      h1.2.2.2 ▸ h2.2.2.2⟩

theorem cleanupRecEntry_get (st : FFmpegState) (p : String × Nat)
    (ridx : Nat) (r : RecProc) (h : nth st.recProcs ridx = some r) :
    nth (cleanupRecEntry st p).recProcs ridx = some r ∨
    nth (cleanupRecEntry st p).recProcs ridx = some { r with killed := true } := by
  unfold cleanupRecEntry
  cases ht : nth st.recProcs p.2 with
  | none => simp [ht, h]
  | some t =>
    simp only [ht]
    by_cases hk : t.killed
    · simp [hk, h]
    · simp only [hk, if_false, Bool.false_eq_true]
      by_cases hp : p.2 = ridx
      · subst hp
        rw [ht] at h
        cases h
        unfold killRec
        by_cases he : r.exited
        · simp [he, nth_updAt_self _ _ _ (nth_some_lt _ _ _ ht)]
        · simp [he, nth_updAt_self _ _ _ (nth_some_lt _ _ _ ht)]
      · simp [nth_updAt_other _ _ _ _ hp, h]

theorem foldRecs_get (l : List (String × Nat)) (st : FFmpegState)
    (ridx : Nat) (r : RecProc) (h : nth st.recProcs ridx = some r) :
    nth (l.foldl cleanupRecEntry st).recProcs ridx = some r ∨
    nth (l.foldl cleanupRecEntry st).recProcs ridx =
      some { r with killed := true } := by
  induction l generalizing st r with
  | nil => exact Or.inl h
  | cons hd tl ih =>
    simp only [List.foldl_cons]
    rcases cleanupRecEntry_get st hd ridx r h with h' | h'
    · exact ih _ _ h'
    · rcases ih _ _ h' with h'' | h''
      · exact Or.inr h''
      · exact Or.inr h''

theorem foldRecs_killed (l : List (String × Nat)) (st : FFmpegState)
    (recId : String) (ridx : Nat) (r : RecProc)
    (hmem : (recId, ridx) ∈ l) (h : nth st.recProcs ridx = some r)
    (hex : r.exited = false) :
    ∃ r', nth (l.foldl cleanupRecEntry st).recProcs ridx = some r' ∧
      r'.killed = true := by
  induction l generalizing st r with
  | nil => simp at hmem
  | cons hd tl ih =>
    simp only [List.foldl_cons]
    rcases List.mem_cons.mp hmem with heq | htl
    · have hp2 : hd.2 = ridx := by rw [← heq]
      have hafter :
          nth (cleanupRecEntry st hd).recProcs ridx =
            some { r with killed := true } ∨
          nth (cleanupRecEntry st hd).recProcs ridx = some r ∧
            r.killed = true := by
        unfold cleanupRecEntry
        rw [hp2, h]
        by_cases hk : r.killed
        · simp [hk, h]
        · simp only [hk, if_false, Bool.false_eq_true]
          unfold killRec
          rw [hex]
          simp [nth_updAt_self _ _ _ (nth_some_lt _ _ _ h)]
      rcases hafter with h' | ⟨h', hk⟩
      · rcases foldRecs_get tl _ ridx _ h' with h'' | h''
        · exact ⟨_, h'', rfl⟩
        · exact ⟨_, h'', rfl⟩
      · rcases foldRecs_get tl _ ridx _ h' with h'' | h''
        · exact ⟨_, h'', hk⟩
        · exact ⟨_, h'', rfl⟩
    · rcases cleanupRecEntry_get st hd ridx r h with h' | h'
      · exact ih _ _ htl h' hex
      · exact ih _ _ htl h' hex

/-! ## The shared-stream reference-counting scenario -/

/-- `n + 1` acquires (all after the first happening while the session is
`running`) followed by `n + 1` releases of the same stream id. -/
def traceC1 (n : Nat) : List Ev :=
  Ev.acq "cam1" oA :: Ev.stderr 0 true ::
    (List.replicate n (Ev.acq "cam1" oA) ++
     List.replicate (n + 1) (Ev.rel "cam1"))

theorem acq_mid (v : Nat) :
    step (midC1 v) (Ev.acq "cam1" oA) = midC1 (v + 1) := rfl

theorem acqN_mid (k v : Nat) :
    run (midC1 v) (List.replicate k (Ev.acq "cam1" oA)) = midC1 (v + k) := by
  induction k generalizing v with
  | zero => rfl
  | succ m ih =>
    rw [List.replicate_succ, run_cons, acq_mid]
    rw [ih (v + 1)]
    congr 1
    omega

theorem rel_mid_pos (v : Nat) :
    step (midC1 (v + 2)) (Ev.rel "cam1") = midC1 (v + 1) := rfl

theorem rel_last : step (midC1 1) (Ev.rel "cam1") = finalC1 := by decide

theorem relN_mid (n : Nat) :
    run (midC1 (n + 1)) (List.replicate (n + 1) (Ev.rel "cam1")) = finalC1 := by
  induction n with
  | zero =>
    rw [List.replicate_succ, List.replicate_zero, run_cons, rel_last]
    rfl
  | succ m ih =>
    rw [List.replicate_succ, run_cons, rel_mid_pos, ih]

theorem runTraceC1 (n : Nat) : run initState (traceC1 n) = finalC1 := by
  have h2 : step (step initState (Ev.acq "cam1" oA)) (Ev.stderr 0 true) =
      midC1 1 := by decide
  calc run initState (traceC1 n)
      = run (step (step initState (Ev.acq "cam1" oA)) (Ev.stderr 0 true))
          (List.replicate n (Ev.acq "cam1" oA) ++
           List.replicate (n + 1) (Ev.rel "cam1")) := rfl
    _ = run (midC1 1)
          (List.replicate n (Ev.acq "cam1" oA) ++
           List.replicate (n + 1) (Ev.rel "cam1")) := by rw [h2]
    _ = run (run (midC1 1) (List.replicate n (Ev.acq "cam1" oA)))
          (List.replicate (n + 1) (Ev.rel "cam1")) := run_append _ _ _
    _ = run (midC1 (1 + n)) (List.replicate (n + 1) (Ev.rel "cam1")) := by
          rw [acqN_mid]
    _ = run (midC1 (n + 1)) (List.replicate (n + 1) (Ev.rel "cam1")) := by
          rw [Nat.add_comm]
    _ = finalC1 := relN_mid n

/-! ## Status-transition analysis (for C3) -/

/-- `Stopped` and `Failed` (here `'stopped'` / `'error'`). -/
def isTerminal (x : StreamStatus) : Bool :=
  match x with
  | StreamStatus.stopped => true
  | StreamStatus.error => true
  | _ => false

/-- Is `e` a stderr chunk of process `pid` containing the start marker? -/
def isStartMarkerFor (e : Ev) (pid : Nat) : Bool :=
  match e with
  | Ev.stderr p m => decide (p = pid) && m
  | _ => false

theorem isTerminal_ne_running (x : StreamStatus)
    (h : isTerminal x = true) : x ≠ StreamStatus.running := by
  cases x <;> simp [isTerminal] at h ⊢

theorem nth_updAt_cases {α : Type} (l : List α) (i j : Nat) (x z y : α)
    (hj : nth l j = some y) (h : nth (updAt l i x) j = some z) :
    (i = j ∧ z = x) ∨ z = y := by
  by_cases hij : i = j
  · subst hij
    rw [nth_updAt_self _ _ _ (nth_some_lt _ _ _ hj)] at h
    exact Or.inl ⟨rfl, (Option.some.inj h).symm⟩
  · rw [nth_updAt_other _ _ _ _ hij, hj] at h
    exact Or.inr (Option.some.inj h).symm

theorem cleanup_streams_eq (st : FFmpegState) :
    (cleanup st).streams =
      (st.activeStreams.foldl cleanupStreamEntry st).streams := by
  unfold cleanup
  exact (foldRecs_fields _ _).1

theorem cleanup_nth (st : FFmpegState) (pid : Nat) (s : StreamInfo)
    (h : nth st.streams pid = some s) :
    nth (cleanup st).streams pid = some s ∨
    nth (cleanup st).streams pid = some { s with killed := true } := by
  rw [cleanup_streams_eq]
  exact foldStreams_get _ _ _ _ h

/-- Processing one event moves a session's status to: the same status, to
`'running'` (only by a start-marker stderr chunk of its own process), or to
one of the terminal statuses. -/
theorem step_status_sub (st : FFmpegState) (e : Ev) (pid : Nat)
    (s1 s2 : StreamInfo)
    (h1 : nth st.streams pid = some s1)
    (h2 : nth (step st e).streams pid = some s2) :
    s2.status = s1.status ∨
    (isStartMarkerFor e pid = true ∧ s2.status = StreamStatus.running) ∨
    s2.status = StreamStatus.stopped ∨ s2.status = StreamStatus.error := by
  cases e with
  | acq id o =>
    simp only [step] at h2
    unfold startHLSStream at h2
    cases hl : alookup st.activeStreams id with
    | none =>
      simp only [hl] at h2
      rw [spawnStream_get st id o pid s1 h1] at h2
      exact Or.inl (by rw [Option.some.inj h2])
    | some pid' =>
      simp only [hl] at h2
      cases hg : nth st.streams pid' with
      | none =>
        simp only [hg] at h2
        rw [spawnStream_get st id o pid s1 h1] at h2
        exact Or.inl (by rw [Option.some.inj h2])
      | some t =>
        simp only [hg] at h2
        by_cases hr : t.status = StreamStatus.running
        · rw [if_pos hr] at h2
          try dsimp only at h2
          rcases nth_updAt_cases _ _ _ _ _ _ h1 h2 with ⟨hij, hz⟩ | hz
        -- the shared session is updated in place
          · rw [hij] at hg
            have ht : t = s1 := Option.some.inj (hg.symm.trans h1)
            left
            rw [hz, ht]
          · exact Or.inl (by rw [hz])
        · rw [if_neg hr] at h2
          rw [spawnStream_get st id o pid s1 h1] at h2
          exact Or.inl (by rw [Option.some.inj h2])
  | rel id =>
    simp only [step] at h2
    unfold stopStream at h2
    cases hl : alookup st.activeStreams id with
    | none =>
      simp only [hl] at h2
      try dsimp only at h2
      rw [h1] at h2
      exact Or.inl (by rw [Option.some.inj h2])
    | some pid' =>
      simp only [hl] at h2
      cases hg : nth st.streams pid' with
      | none =>
        simp only [hg] at h2
        try dsimp only at h2
        rw [h1] at h2
        exact Or.inl (by rw [Option.some.inj h2])
      | some t =>
        simp only [hg] at h2
        by_cases hv : t.viewers - 1 = 0
        · rw [if_pos hv] at h2
          try dsimp only at h2
          by_cases hk : t.killed
          · rw [if_pos hk] at h2
            rcases nth_updAt_cases _ _ _ _ _ _ h1 h2 with ⟨_, hz⟩ | hz
            · right; right; left
              rw [hz]
            · exact Or.inl (by rw [hz])
          · rw [if_neg hk] at h2
            rcases nth_updAt_cases _ _ _ _ _ _ h1 h2 with ⟨_, hz⟩ | hz
            · right; right; left
              rw [hz, killProc_status]
            · exact Or.inl (by rw [hz])
        · rw [if_neg hv] at h2
          try dsimp only at h2
          rcases nth_updAt_cases _ _ _ _ _ _ h1 h2 with ⟨hij, hz⟩ | hz
          · rw [hij] at hg
            have ht : t = s1 := Option.some.inj (hg.symm.trans h1)
            left
            rw [hz, ht]
          · exact Or.inl (by rw [hz])
  | stderr p m =>
    simp only [step] at h2
    unfold stderrStep at h2
    cases m with
    | false =>
      rw [if_neg (by simp)] at h2
      rw [h1] at h2
      exact Or.inl (by rw [Option.some.inj h2])
    | true =>
      rw [if_pos rfl] at h2
      cases hg : nth st.streams p with
      | none =>
        simp only [hg] at h2
        rw [h1] at h2
        exact Or.inl (by rw [Option.some.inj h2])
      | some t =>
        simp only [hg] at h2
        try dsimp only at h2
        rcases nth_updAt_cases _ _ _ _ _ _ h1 h2 with ⟨hij, hz⟩ | hz
        · right; left
          constructor
          · simp [isStartMarkerFor, hij]
          · rw [hz]
        · exact Or.inl (by rw [hz])
  | closed p code =>
    simp only [step] at h2
    unfold closeStep at h2
    cases hg : nth st.streams p with
    | none =>
      simp only [hg] at h2
      rw [h1] at h2
      exact Or.inl (by rw [Option.some.inj h2])
    | some t =>
      simp only [hg] at h2
      try dsimp only at h2
      rcases nth_updAt_cases _ _ _ _ _ _ h1 h2 with ⟨_, hz⟩ | hz
      · by_cases hc : code = some 0
        · right; right; left
          rw [hz]
          simp [hc]
        · right; right; right
          rw [hz]
          simp [hc]
      · exact Or.inl (by rw [hz])
  | failed p =>
    simp only [step] at h2
    unfold errorStep at h2
    cases hg : nth st.streams p with
    | none =>
      simp only [hg] at h2
      rw [h1] at h2
      exact Or.inl (by rw [Option.some.inj h2])
    | some t =>
      simp only [hg] at h2
      try dsimp only at h2
      rcases nth_updAt_cases _ _ _ _ _ _ h1 h2 with ⟨_, hz⟩ | hz
      · right; right; right
        rw [hz]
      · exact Or.inl (by rw [hz])
  | killTimer p =>
    simp only [step] at h2
    unfold forceKillStep at h2
    cases hg : nth st.streams p with
    | none =>
      simp only [hg] at h2
      rw [h1] at h2
      exact Or.inl (by rw [Option.some.inj h2])
    | some t =>
      simp only [hg] at h2
      by_cases hk : t.killed
      · rw [if_pos hk] at h2
        rw [h1] at h2
        exact Or.inl (by rw [Option.some.inj h2])
      · rw [if_neg hk] at h2
        try dsimp only at h2
        rcases nth_updAt_cases _ _ _ _ _ _ h1 h2 with ⟨hij, hz⟩ | hz
        · rw [hij] at hg
          have ht : t = s1 := Option.some.inj (hg.symm.trans h1)
          left
          rw [hz, killProc_status, ht]
        · exact Or.inl (by rw [hz])
  | shutdown =>
    simp only [step] at h2
    rcases cleanup_nth st pid s1 h1 with h' | h'
    · rw [h'] at h2
      exact Or.inl (by rw [Option.some.inj h2])
    · rw [h'] at h2
      exact Or.inl (by rw [← Option.some.inj h2])

theorem startHLSStream_not_running_spawn (st : FFmpegState) (streamId : String)
    (o : StreamOptions) (pid : Nat) (s : StreamInfo)
    (h1 : alookup st.activeStreams streamId = some pid)
    (h2 : nth st.streams pid = some s)
    (h3 : s.status ≠ StreamStatus.running) :
    startHLSStream st streamId o = spawnStream st streamId o := by
  simp only [startHLSStream, h1, h2]
  rw [if_neg h3]

/-! ## Claim theorems -/

/-- C1 counterexample.  The claim says an acquire made while the registry
holds an entry with status `Starting` increments that entry's `viewerCount`
and spawns no new process, and that any sequence of n acquires + n releases
spawns exactly one process.  The code shares only on status `'running'`
(line 70): here the second acquire arrives while the first session is still
`'starting'` (before any stderr start marker), so a SECOND process is
spawned (two heap entries), the registry entry is replaced by a fresh
session with `viewers = 1` (not 2), and the two releases kill only the
second process — two spawns, one kill, and the first process leaks. -/
theorem C1_counterexample :
    getStreamInfo (run initState [Ev.acq "cam1" oA, Ev.acq "cam1" oA]) "cam1" =
      some { id := "cam1", rtspUrl := "rtsp://cam1",
             status := StreamStatus.starting, startTime := 1,
             outputPath := "/streams/cam1/playlist.m3u8", viewers := 1,
             killed := false, exited := false } ∧
    (run initState [Ev.acq "cam1" oA, Ev.acq "cam1" oA]).streams.length = 2 ∧
    (run initState [Ev.acq "cam1" oA, Ev.acq "cam1" oA, Ev.rel "cam1",
        Ev.rel "cam1"]).streams.length = 2 ∧
    (run initState [Ev.acq "cam1" oA, Ev.acq "cam1" oA, Ev.rel "cam1",
        Ev.rel "cam1"]).kills = [(1, KillSig.sigterm)] ∧
    (2 : Nat) ≠ 1 := by decide

/-- C1 (amended).  Sharing happens exactly when the existing entry's status
is `Running`: such an acquire increments the entry's `viewerCount` by one,
returns the existing output locator, and spawns no process (the state
equality shows the heap is only updated in place).  Consequently, for every
n, a sequence of n + 1 acquires — the first creating the session and all
later ones arriving while it is `Running` — followed by n + 1 releases
spawns exactly one process and signals exactly one termination. -/
theorem C1_amended :
    (∀ (st : FFmpegState) (streamId : String) (o : StreamOptions)
        (pid : Nat) (s : StreamInfo),
        alookup st.activeStreams streamId = some pid →
        nth st.streams pid = some s →
        s.status = StreamStatus.running →
        startHLSStream st streamId o =
          ({ st with
              streams := updAt st.streams pid { s with viewers := s.viewers + 1 } },
           AcqRes.shared s.outputPath)) ∧
    (∀ n : Nat,
        (run initState (traceC1 n)).streams.length = 1 ∧
        (run initState (traceC1 n)).kills = [(0, KillSig.sigterm)]) := by
  constructor
  · exact startHLSStream_running_eq
  · intro n
    rw [runTraceC1 n]
    exact ⟨rfl, rfl⟩

/-- Witness for C1 (amended): the sharing equality at a concrete running
session with one viewer, and the one-spawn/one-kill property of the
concrete trace with three acquires and three releases. -/
theorem C1_witness :
    startHLSStream (midC1 1) "cam1" oA =
      ({ midC1 1 with
          streams := updAt (midC1 1).streams 0
            { sharedInfo 1 with viewers := (sharedInfo 1).viewers + 1 } },
       AcqRes.shared (sharedInfo 1).outputPath) ∧
    (run initState (traceC1 2)).streams.length = 1 ∧
    (run initState (traceC1 2)).kills = [(0, KillSig.sigterm)] :=
  ⟨C1_amended.1 (midC1 1) "cam1" oA 0 (sharedInfo 1) (by decide) (by decide)
      rfl,
   C1_amended.2 2⟩

/-- C2 (code bug).  Everything in the claim holds at the failing input
except the forcible escalation: a release that brings the viewer count to 0
sends SIGTERM, marks the session `'stopped'` and removes the entry
(`stopStream` returns `true`), but the scheduled force-kill check
(lines 208-212) tests `process.killed` — which is already `true` right
after the successful SIGTERM `kill()` — instead of whether the process
exited, so even though the process is still alive (`exited = false`) when
the 5-second grace timer fires, NO SIGKILL is ever sent: the final kill log
holds only the single SIGTERM.  This contradicts the code's own comment
"Force kill if not terminated within 5 seconds". -/
theorem C2_forcekill_escalation_never_fires :
    (stopStream (run initState [Ev.acq "cam1" oA, Ev.stderr 0 true])
        "cam1").2 = true ∧
    run initState [Ev.acq "cam1" oA, Ev.stderr 0 true, Ev.rel "cam1",
        Ev.killTimer 0] =
      { streams :=
          [{ id := "cam1", rtspUrl := "rtsp://cam1",
             status := StreamStatus.stopped, startTime := 0,
             outputPath := "/streams/cam1/playlist.m3u8", viewers := 0,
             killed := true, exited := false }],
        activeStreams := [], recProcs := [], recordingProcesses := [],
        kills := [(0, KillSig.sigterm)], dirs := ["cam1"] } := by decide

/-- C3 counterexample.  The claim says a terminal status is never changed
back to a non-terminal one.  But the stderr handler (lines 146-151) sets
status `'running'` unconditionally: after a release has stopped the session
(status `'stopped'`, SIGTERM sent), one more buffered stderr chunk carrying
the start marker — possible, since the process has not closed yet — moves
the session object's status from `'stopped'` back to `'running'`. -/
theorem C3_counterexample :
    (nth (run initState [Ev.acq "cam1" oA, Ev.stderr 0 true,
        Ev.rel "cam1"]).streams 0).map (fun s => s.status) =
      some StreamStatus.stopped ∧
    (nth (run initState [Ev.acq "cam1" oA, Ev.stderr 0 true, Ev.rel "cam1",
        Ev.stderr 0 true]).streams 0).map (fun s => s.status) =
      some StreamStatus.running ∧
    isTerminal StreamStatus.stopped = true := by decide

/-- C3 (amended).  (1) A session's status never returns to `Starting`
under any event.  (2) A terminal status (`'stopped'` / `'error'`) is
preserved by every event EXCEPT a start-marker stderr chunk of the
session's own process, which is the single backward transition the code
permits (the handler sets `'running'` without checking the current status).
(3) An acquire for an id whose registered session is terminal never reuses
the dead session: it takes the spawn path, allocating a fresh session (at
the new heap index, distinct from the old one) with a newly spawned process,
status `Starting` and one viewer, and rebinding the id to it. -/
theorem C3_amended :
    (∀ (st : FFmpegState) (e : Ev) (pid : Nat) (s1 s2 : StreamInfo),
        nth st.streams pid = some s1 →
        nth (step st e).streams pid = some s2 →
        s1.status ≠ StreamStatus.starting →
        s2.status ≠ StreamStatus.starting) ∧
    (∀ (st : FFmpegState) (e : Ev) (pid : Nat) (s1 s2 : StreamInfo),
        nth st.streams pid = some s1 →
        nth (step st e).streams pid = some s2 →
        isTerminal s1.status = true →
        isStartMarkerFor e pid = false →
        isTerminal s2.status = true) ∧
    (∀ (st : FFmpegState) (streamId : String) (o : StreamOptions)
        (pid : Nat) (s : StreamInfo),
        alookup st.activeStreams streamId = some pid →
        nth st.streams pid = some s →
        isTerminal s.status = true →
        startHLSStream st streamId o = spawnStream st streamId o ∧
        (startHLSStream st streamId o).2 =
          AcqRes.spawnedNew st.streams.length ∧
        pid < st.streams.length ∧
        alookup (startHLSStream st streamId o).1.activeStreams streamId =
          some st.streams.length ∧
        nth (startHLSStream st streamId o).1.streams st.streams.length =
          some { id := streamId, rtspUrl := o.rtspUrl,
                 status := StreamStatus.starting,
                 startTime := st.streams.length,
                 outputPath := "/streams/" ++ streamId ++ "/playlist.m3u8",
                 viewers := 1, killed := false, exited := false }) := by
  refine ⟨?_, ?_, ?_⟩
  · intro st e pid s1 s2 h1 h2 hns
    rcases step_status_sub st e pid s1 s2 h1 h2 with heq | ⟨_, hr⟩ | hs | he
    · rw [heq]; exact hns
    · rw [hr]; simp
    · rw [hs]; simp
    · rw [he]; simp
  · intro st e pid s1 s2 h1 h2 hterm hmark
    rcases step_status_sub st e pid s1 s2 h1 h2 with heq | ⟨hm, _⟩ | hs | he
    · rw [heq]; exact hterm
    · rw [hmark] at hm; cases hm
    · rw [hs]; rfl
    · rw [he]; rfl
  · intro st streamId o pid s h1 h2 h3
    have hspawn := startHLSStream_not_running_spawn st streamId o pid s h1 h2
      (isTerminal_ne_running _ h3)
    refine ⟨hspawn, ?_, nth_some_lt _ _ _ h2, ?_, ?_⟩
    · rw [hspawn]
      rfl
    · rw [hspawn]
      exact alookup_aset_self _ _ _
    · rw [hspawn]
      exact nth_append_length _ _

/-- Witness for C3 (amended): the three parts applied to a concrete state
whose single session reached status `'error'` by a nonzero self-exit. -/
theorem C3_witness :
    ({ termInfo with status := StreamStatus.stopped, viewers := 0 } :
        StreamInfo).status ≠ StreamStatus.starting ∧
    isTerminal ({ termInfo with status := StreamStatus.stopped, viewers := 0 } :
        StreamInfo).status = true ∧
    (startHLSStream stTerm "cam1" oA = spawnStream stTerm "cam1" oA ∧
     (startHLSStream stTerm "cam1" oA).2 =
       AcqRes.spawnedNew stTerm.streams.length ∧
     0 < stTerm.streams.length ∧
     alookup (startHLSStream stTerm "cam1" oA).1.activeStreams "cam1" =
       some stTerm.streams.length ∧
     nth (startHLSStream stTerm "cam1" oA).1.streams stTerm.streams.length =
       some { id := "cam1", rtspUrl := oA.rtspUrl,
              status := StreamStatus.starting,
              startTime := stTerm.streams.length,
              outputPath := "/streams/" ++ "cam1" ++ "/playlist.m3u8",
              viewers := 1, killed := false, exited := false }) :=
  ⟨C3_amended.1 stTerm (Ev.rel "cam1") 0 termInfo
      ({ termInfo with status := StreamStatus.stopped, viewers := 0 } :
        StreamInfo)
      (by decide) (by decide) (by decide),
   C3_amended.2.1 stTerm (Ev.rel "cam1") 0 termInfo
      ({ termInfo with status := StreamStatus.stopped, viewers := 0 } :
        StreamInfo)
      (by decide) (by decide) (by decide) (by decide),
   C3_amended.2.2 stTerm "cam1" oA 0 termInfo (by decide) (by decide)
      (by decide)⟩

/-- C4 counterexample.  The claim says a spawn failure leaves no session
registered (`getSession(id)` finds nothing).  In the code `spawn` returns a
process handle and fails asynchronously via the `error` event; the session
has already been registered (line 136) and the `error` handler (lines
165-169) only flips its status to `'error'` — so after the spawn failure
`getStreamInfo` still returns the registered session. -/
theorem C4_counterexample :
    getStreamInfo (run initState [Ev.acq "cam1" oA, Ev.failed 0]) "cam1" =
      some { id := "cam1", rtspUrl := "rtsp://cam1",
             status := StreamStatus.error, startTime := 0,
             outputPath := "/streams/cam1/playlist.m3u8", viewers := 1,
             killed := false, exited := false } ∧
    getStreamInfo (run initState [Ev.acq "cam1" oA, Ev.failed 0]) "cam1" ≠
      none := by decide

/-- C4 (amended).  When an acquire takes the spawn path and the spawn then
fails (the `error` event fires), the session REMAINS registered under its
id with status `Failed` (`'error'`), and the start failure reaches the
caller only asynchronously: after the startup wait the playlist does not
exist, so the pending promise rejects with the start-failure error. -/
theorem C4_amended (st : FFmpegState) (streamId : String) (o : StreamOptions)
    (st' : FFmpegState) (pid : Nat)
    (h : startHLSStream st streamId o = (st', AcqRes.spawnedNew pid)) :
    alookup (errorStep st' pid).activeStreams streamId = some pid ∧
    (nth (errorStep st' pid).streams pid).map (fun s => s.status) =
      some StreamStatus.error ∧
    startHLSStreamResult (errorStep st' pid) pid false =
      Except.error "Failed to create HLS playlist" := by
  have hs : spawnStream st streamId o = (st', AcqRes.spawnedNew pid) := by
    unfold startHLSStream at h
    cases hl : alookup st.activeStreams streamId with
    | none => simpa [hl] using h
    | some pid' =>
      simp only [hl] at h
      cases hg : nth st.streams pid' with
      | none => simpa [hg] using h
      | some t =>
        simp only [hg] at h
        by_cases hr : t.status = StreamStatus.running
        · rw [if_pos hr] at h
          exact absurd (congrArg Prod.snd h) (by simp)
        · rwa [if_neg hr] at h
    -- the spawn path allocated the session at the end of the heap
  unfold spawnStream at hs
  injection hs with hA hB
  injection hB with hpid
  subst hA
  subst hpid
  refine ⟨?_, ?_, rfl⟩
  · rw [errorStep_active]
    exact alookup_aset_self _ _ _
  · unfold errorStep
    rw [show nth
        (st.streams ++
          [{ id := streamId, rtspUrl := o.rtspUrl,
             status := StreamStatus.starting, startTime := st.streams.length,
             outputPath := "/streams/" ++ streamId ++ "/playlist.m3u8",
             viewers := 1, killed := false,
             exited := false }]) st.streams.length =
        some { id := streamId, rtspUrl := o.rtspUrl,
               status := StreamStatus.starting,
               startTime := st.streams.length,
               outputPath := "/streams/" ++ streamId ++ "/playlist.m3u8",
               viewers := 1, killed := false, exited := false } from
      nth_append_length _ _]
    have hlt : st.streams.length <
        (st.streams ++
          [({ id := streamId, rtspUrl := o.rtspUrl,
              status := StreamStatus.starting, startTime := st.streams.length,
              outputPath := "/streams/" ++ streamId ++ "/playlist.m3u8",
              viewers := 1, killed := false,
              exited := false } : StreamInfo)]).length := by
      simp
    rw [nth_updAt_self _ _ _ hlt]
    rfl

/-- Witness for C4 (amended): the concrete fresh acquire whose spawn then
errors out. -/
theorem C4_witness :
    alookup (errorStep (run initState [Ev.acq "cam1" oA]) 0).activeStreams
        "cam1" = some 0 ∧
    (nth (errorStep (run initState [Ev.acq "cam1" oA]) 0).streams 0).map
        (fun s => s.status) = some StreamStatus.error ∧
    startHLSStreamResult (errorStep (run initState [Ev.acq "cam1" oA]) 0) 0
        false = Except.error "Failed to create HLS playlist" :=
  C4_amended initState "cam1" oA (run initState [Ev.acq "cam1" oA]) 0
    (by decide)

/-- C5 (code bug).  For the record operation with a bounded duration the
constructed argument vector is NOT ordered as claimed: `splice(-1, 0, '-t',
d)` runs before `push(outputPath)`, so the `-t d` pair lands between the
output-format flag `-f` and its value — the element following `-f` is `-t`,
not the format value `mp4`. -/
theorem C5_record_duration_misplaced :
    recordingArgs { rtspUrl := "rtsp://cam1",
                    outputPath := "/recordings/r1.mp4",
                    duration := some 5, format := some "mp4",
                    quality := some "medium" } =
      ["-i", "rtsp://cam1", "-c:v", "libx264", "-preset", "faster",
       "-crf", "23", "-c:a", "aac", "-f", "-t", "5", "mp4",
       "/recordings/r1.mp4"] ∧
    nth (recordingArgs { rtspUrl := "rtsp://cam1",
                         outputPath := "/recordings/r1.mp4",
                         duration := some 5, format := some "mp4",
                         quality := some "medium" }) 10 = some "-f" ∧
    nth (recordingArgs { rtspUrl := "rtsp://cam1",
                         outputPath := "/recordings/r1.mp4",
                         duration := some 5, format := some "mp4",
                         quality := some "medium" }) 11 = some "-t" := by
  decide

/-- C10.  When an acquire attaches to an existing `Running` session, every
field of the session other than `viewers` is unchanged (the updated heap
entry is literally the old record with `viewers + 1`), the returned locator
is the original session's `outputPath`, the registry is untouched, no
process is spawned (heap length unchanged), and the call's own source URI
and encoding options are ignored entirely: any two option bags produce the
identical result. -/
theorem C10_attach_preserves_session (st : FFmpegState) (streamId : String)
    (o o2 : StreamOptions) (pid : Nat) (s : StreamInfo)
    (h1 : alookup st.activeStreams streamId = some pid)
    (h2 : nth st.streams pid = some s)
    (h3 : s.status = StreamStatus.running) :
    nth (startHLSStream st streamId o).1.streams pid =
      some { s with viewers := s.viewers + 1 } ∧
    (startHLSStream st streamId o).2 = AcqRes.shared s.outputPath ∧
    (startHLSStream st streamId o).1.activeStreams = st.activeStreams ∧
    (startHLSStream st streamId o).1.streams.length = st.streams.length ∧
    startHLSStream st streamId o2 = startHLSStream st streamId o := by
  have he := startHLSStream_running_eq st streamId o pid s h1 h2 h3
  have he2 := startHLSStream_running_eq st streamId o2 pid s h1 h2 h3
  refine ⟨?_, ?_, ?_, ?_, ?_⟩
  · rw [he]
    exact nth_updAt_self _ _ _ (nth_some_lt _ _ _ h2)
  · rw [he]
  · rw [he]
  · rw [he]
    exact updAt_length _ _ _
  · rw [he, he2]

/-- Witness for C10: attaching to the concrete running session with a
different source URI and different options changes nothing but the viewer
count. -/
theorem C10_witness :
    nth (startHLSStream (midC1 1) "cam1" oA).1.streams 0 =
      some { sharedInfo 1 with viewers := (sharedInfo 1).viewers + 1 } ∧
    (startHLSStream (midC1 1) "cam1" oA).2 =
      AcqRes.shared (sharedInfo 1).outputPath ∧
    (startHLSStream (midC1 1) "cam1" oA).1.activeStreams =
      (midC1 1).activeStreams ∧
    (startHLSStream (midC1 1) "cam1" oA).1.streams.length =
      (midC1 1).streams.length ∧
    startHLSStream (midC1 1) "cam1"
        { rtspUrl := "rtsp://another-camera", resolution := some "640x480" } =
      startHLSStream (midC1 1) "cam1" oA :=
  C10_attach_preserves_session (midC1 1) "cam1" oA
    { rtspUrl := "rtsp://another-camera", resolution := some "640x480" } 0
    (sharedInfo 1) (by decide) (by decide) rfl

/-! ## Invariants of the thumbnail and probe promise machines -/

theorem generateThumbnailStep_inv (p : String) (st : ThumbnailState)
    (e : ThumbEv)
    (_h : st.settled.isSome = true →
      (st.exited || st.killed || st.spawnErrored) = true) :
    (generateThumbnailStep p st e).settled.isSome = true →
      ((generateThumbnailStep p st e).exited ||
       (generateThumbnailStep p st e).killed ||
       (generateThumbnailStep p st e).spawnErrored) = true := by
  cases e with
  | closed code fileExists =>
    cases hs : st.settled with
    | some r => intro _; simp [generateThumbnailStep, hs]
    | none =>
      by_cases hc : code = some 0 ∧ fileExists = true
      · intro _; simp [generateThumbnailStep, hs, hc]
      · intro _; simp [generateThumbnailStep, hs, hc]
  | failed =>
    cases hs : st.settled with
    | some r => intro _; simp [generateThumbnailStep, hs]
    | none => intro _; simp [generateThumbnailStep, hs]
  | timeout =>
    by_cases hk : st.killed
    · intro hsome
      simp [generateThumbnailStep, hk]
    · have hk' : st.killed = false := by
        revert hk
        cases st.killed <;> simp
      cases hs : st.settled with
      | some r =>
        intro _
        simp only [generateThumbnailStep, hk', Bool.false_eq_true, if_false,
          hs]
        cases hex : st.exited <;> simp [hex]
      | none =>
        intro _
        simp only [generateThumbnailStep, hk', Bool.false_eq_true, if_false,
          hs]
        cases hex : st.exited <;> simp [hex]

theorem thumbRun_inv (p : String) (evs : List ThumbEv) (st : ThumbnailState)
    (h : st.settled.isSome = true →
      (st.exited || st.killed || st.spawnErrored) = true) :
    (thumbRun p st evs).settled.isSome = true →
      ((thumbRun p st evs).exited || (thumbRun p st evs).killed ||
       (thumbRun p st evs).spawnErrored) = true := by
  induction evs generalizing st with
  | nil => exact h
  | cons e tl ih =>
    exact ih (generateThumbnailStep p st e)
      (generateThumbnailStep_inv p st e h)

theorem testStreamStep_settled_isSome (st : ProbeState) (e : ProbeEv)
    (h : st.settled.isSome = true) :
    (testStreamStep st e).settled.isSome = true := by
  cases hs : st.settled with
  | none => rw [hs] at h; cases h
  | some b =>
    cases e with
    | stderrData m => cases m <;> simp [testStreamStep, hs]
    | closed code => simp [testStreamStep, hs]
    | failed => simp [testStreamStep, hs]
    | timeout => by_cases hk : st.killed <;> simp [testStreamStep, hs, hk]

theorem testStreamStep_timeout_settles (st : ProbeState) :
    (testStreamStep st ProbeEv.timeout).settled.isSome = true := by
  by_cases hk : st.killed
  · cases hs : st.settled with
    | none => simp [testStreamStep, hs, hk]
    | some b => simp [testStreamStep, hs, hk]
  · cases hs : st.settled with
    | none => simp [testStreamStep, hs, hk]
    | some b => simp [testStreamStep, hs, hk]

theorem probeRun_settled_isSome (evs : List ProbeEv) (st : ProbeState)
    (h : st.settled.isSome = true) :
    (probeRun st evs).settled.isSome = true := by
  induction evs generalizing st with
  | nil => exact h
  | cons e tl ih => exact ih _ (testStreamStep_settled_isSome st e h)

theorem probeRun_timeout_settles (evs : List ProbeEv) (st : ProbeState)
    (h : ProbeEv.timeout ∈ evs) :
    (probeRun st evs).settled.isSome = true := by
  induction evs generalizing st with
  | nil => cases h
  | cons e tl ih =>
    rcases List.mem_cons.mp h with heq | htl
    · rw [← heq]
      exact probeRun_settled_isSome tl _ (testStreamStep_timeout_settles st)
    · exact ih _ htl

theorem testStreamStep_inv (st : ProbeState) (e : ProbeEv)
    (h : st.settled.isSome = true →
      (st.killed || st.exited || st.errored) = true) :
    (testStreamStep st e).settled.isSome = true →
      ((testStreamStep st e).killed || (testStreamStep st e).exited ||
       (testStreamStep st e).errored) = true := by
  cases e with
  | stderrData m =>
    cases m with
    | false => intro hsome; exact h hsome
    | true =>
      intro _
      cases hs : st.settled with
      | some r =>
        simp only [testStreamStep, hs]
        cases hex : st.exited <;> simp [hex]
      | none =>
        simp only [testStreamStep, hs]
        cases hex : st.exited <;> simp [hex]
  | closed code =>
    cases hs : st.settled with
    | some r => intro _; simp [testStreamStep, hs]
    | none => intro _; simp [testStreamStep, hs]
  | failed =>
    cases hs : st.settled with
    | some r => intro _; simp [testStreamStep, hs]
    | none => intro _; simp [testStreamStep, hs]
  | timeout =>
    by_cases hk : st.killed
    · cases hs : st.settled with
      | none => intro _; simp [testStreamStep, hs, hk]
      | some r => intro _; simp [testStreamStep, hs, hk]
    · have hk' : st.killed = false := by
        revert hk
        cases st.killed <;> simp
      cases hs : st.settled with
      | none =>
        intro _
        simp only [testStreamStep, hk', Bool.false_eq_true, if_false, hs]
        cases hex : st.exited <;> simp [hex]
      | some r =>
        intro _
        simp only [testStreamStep, hk', Bool.false_eq_true, if_false, hs]
        cases hex : st.exited <;> simp [hex]

theorem probeRun_inv (evs : List ProbeEv) (st : ProbeState)
    (h : st.settled.isSome = true →
      (st.killed || st.exited || st.errored) = true) :
    (probeRun st evs).settled.isSome = true →
      ((probeRun st evs).killed || (probeRun st evs).exited ||
       (probeRun st evs).errored) = true := by
  induction evs generalizing st with
  | nil => exact h
  | cons e tl ih => exact ih _ (testStreamStep_inv st e h)

/-- C6 counterexample.  The claim says that in EVERY rejection case the
process is forcibly terminated before the rejection.  On a nonzero exit the
`close` handler (lines 359-366) rejects immediately without any `kill()`
call: the rejection happens with zero kill invocations. -/
theorem C6_counterexample :
    (thumbRun "/tmp/out.jpg" thumbInit
        [ThumbEv.closed (some 1) false]).settled =
      some (Except.error "Thumbnail generation failed") ∧
    (thumbRun "/tmp/out.jpg" thumbInit
        [ThumbEv.closed (some 1) false]).killCalls = 0 := by decide

/-- C6 (amended).  `generateThumbnail` resolves with the output path only
on process exit with code 0 AND an existing output file; it rejects on
nonzero exit, on a missing output file even after exit code 0, on spawn
error, and on the timeout; only the timeout rejection invokes `kill()`
before rejecting — the exit-based rejections happen after the process has
already exited and the spawn-error rejection after the spawn failed, so in
every settled state the process is not running (it exited, was killed, or
never started). -/
theorem C6_amended :
    (∀ (p : String) (st : ThumbnailState) (e : ThumbEv) (x : String),
        st.settled = none →
        (generateThumbnailStep p st e).settled = some (Except.ok x) →
        e = ThumbEv.closed (some 0) true ∧ x = p) ∧
    (∀ (p : String) (st : ThumbnailState) (code : Option Int)
        (fileExists : Bool),
        st.settled = none →
        ¬ (code = some 0 ∧ fileExists = true) →
        (generateThumbnailStep p st (ThumbEv.closed code fileExists)).settled =
          some (Except.error "Thumbnail generation failed")) ∧
    (∀ (p : String) (st : ThumbnailState),
        st.settled = none →
        (generateThumbnailStep p st ThumbEv.failed).settled =
          some (Except.error "spawn error")) ∧
    (∀ (p : String) (st : ThumbnailState),
        st.settled = none → st.killed = false →
        (generateThumbnailStep p st ThumbEv.timeout).killCalls =
          st.killCalls + 1 ∧
        (generateThumbnailStep p st ThumbEv.timeout).settled =
          some (Except.error "Thumbnail generation timeout")) ∧
    (∀ (p : String) (evs : List ThumbEv),
        (thumbRun p thumbInit evs).settled.isSome = true →
        ((thumbRun p thumbInit evs).exited ||
         (thumbRun p thumbInit evs).killed ||
         (thumbRun p thumbInit evs).spawnErrored) = true) := by
  refine ⟨?_, ?_, ?_, ?_, ?_⟩
  · intro p st e x hnone hok
    cases e with
    | closed code fileExists =>
      simp only [generateThumbnailStep, hnone] at hok
      by_cases hc : code = some 0 ∧ fileExists = true
      · rw [if_pos hc] at hok
        have hx := Except.ok.inj (Option.some.inj hok)
        exact ⟨by rw [hc.1, hc.2], hx.symm⟩
      · rw [if_neg hc] at hok
        cases Option.some.inj hok
    | failed =>
      simp only [generateThumbnailStep, hnone] at hok
      cases Option.some.inj hok
    | timeout =>
      by_cases hk : st.killed
      · simp only [generateThumbnailStep, hk, if_true, hnone] at hok
        cases hok
      · have hk' : st.killed = false := by
          revert hk
          cases st.killed <;> simp
        simp only [generateThumbnailStep, hk', Bool.false_eq_true, if_false,
          hnone] at hok
        cases Option.some.inj hok
  · intro p st code fileExists hnone hc
    simp only [generateThumbnailStep, hnone]
    rw [if_neg hc]
  · intro p st hnone
    simp only [generateThumbnailStep, hnone]
  · intro p st hnone hk
    constructor
    · simp [generateThumbnailStep, hk, hnone]
    · simp [generateThumbnailStep, hk, hnone]
  · intro p evs
    exact thumbRun_inv p evs thumbInit (by intro hh; cases hh)

/-- Witness for C6 (amended): each settling behaviour at a concrete
unsettled state, and the not-left-running fact for a concrete run. -/
theorem C6_witness :
    (ThumbEv.closed (some 0) true = ThumbEv.closed (some 0) true ∧
      "/tmp/a.jpg" = "/tmp/a.jpg") ∧
    (generateThumbnailStep "/tmp/a.jpg" thumbInit
        (ThumbEv.closed (some 0) false)).settled =
      some (Except.error "Thumbnail generation failed") ∧
    (generateThumbnailStep "/tmp/a.jpg" thumbInit ThumbEv.failed).settled =
      some (Except.error "spawn error") ∧
    ((generateThumbnailStep "/tmp/a.jpg" thumbInit ThumbEv.timeout).killCalls =
        thumbInit.killCalls + 1 ∧
      (generateThumbnailStep "/tmp/a.jpg" thumbInit ThumbEv.timeout).settled =
        some (Except.error "Thumbnail generation timeout")) ∧
    ((thumbRun "/tmp/a.jpg" thumbInit [ThumbEv.timeout]).exited ||
     (thumbRun "/tmp/a.jpg" thumbInit [ThumbEv.timeout]).killed ||
     (thumbRun "/tmp/a.jpg" thumbInit [ThumbEv.timeout]).spawnErrored) =
      true :=
  ⟨C6_amended.1 "/tmp/a.jpg"
      { thumbInit with exited := true } (ThumbEv.closed (some 0) true)
      "/tmp/a.jpg" rfl (by decide),
   C6_amended.2.1 "/tmp/a.jpg" thumbInit (some 0) false rfl (by decide),
   C6_amended.2.2.1 "/tmp/a.jpg" thumbInit rfl,
   C6_amended.2.2.2.1 "/tmp/a.jpg" thumbInit rfl rfl,
   C6_amended.2.2.2.2 "/tmp/a.jpg" [ThumbEv.timeout] (by decide)⟩

/-- C7 counterexample.  The claim says the probe resolves `true` exactly
when the diagnostic stream confirmed a decodable elementary stream.  But
the `close` handler (lines 420-424) resolves `code === 0` when the promise
is not yet settled: a clean exit with NO marker chunk ever observed still
yields `true`. -/
theorem C7_counterexample :
    (probeRun probeInit [ProbeEv.closed (some 0)]).settled = some true ∧
    ProbeEv.stderrData true ∉ [ProbeEv.closed (some 0)] := by decide

/-- C7 (amended).  `testStream` settles `true` only via a marker chunk or a
clean (code 0) exit; a marker chunk settles `true` after invoking `kill()`;
nonzero exit, process error and timeout settle `false`; the promise never
rejects (its result is always a boolean) and is settled by the time the
timeout event has been processed (bounded return); and whenever it is
settled the probe process is not left running (killed, exited, or
errored). -/
theorem C7_amended :
    (∀ (st : ProbeState) (e : ProbeEv),
        st.settled = none →
        (testStreamStep st e).settled = some true →
        e = ProbeEv.stderrData true ∨ e = ProbeEv.closed (some 0)) ∧
    (∀ st : ProbeState,
        st.settled = none →
        (testStreamStep st (ProbeEv.stderrData true)).settled = some true ∧
        (testStreamStep st (ProbeEv.stderrData true)).killCalls =
          st.killCalls + 1) ∧
    (∀ (st : ProbeState) (code : Option Int),
        st.settled = none → code ≠ some 0 →
        (testStreamStep st (ProbeEv.closed code)).settled = some false) ∧
    (∀ st : ProbeState,
        st.settled = none →
        (testStreamStep st ProbeEv.failed).settled = some false ∧
        (testStreamStep st ProbeEv.timeout).settled = some false) ∧
    (∀ evs : List ProbeEv,
        ProbeEv.timeout ∈ evs →
        (probeRun probeInit evs).settled.isSome = true) ∧
    (∀ evs : List ProbeEv,
        (probeRun probeInit evs).settled.isSome = true →
        ((probeRun probeInit evs).killed || (probeRun probeInit evs).exited ||
         (probeRun probeInit evs).errored) = true) := by
  refine ⟨?_, ?_, ?_, ?_, ?_, ?_⟩
  · intro st e hnone htrue
    cases e with
    | stderrData m =>
      cases m with
      | false =>
        rw [show testStreamStep st (ProbeEv.stderrData false) = st from rfl,
          hnone] at htrue
        cases htrue
      | true => exact Or.inl rfl
    | closed code =>
      simp only [testStreamStep, hnone] at htrue
      have hb := Option.some.inj htrue
      right
      rw [show code = some 0 from of_decide_eq_true hb]
    | failed =>
      simp only [testStreamStep, hnone] at htrue
      cases Option.some.inj htrue
    | timeout =>
      by_cases hk : st.killed
      · simp only [testStreamStep, hk, if_true, hnone] at htrue
        cases Option.some.inj htrue
      · have hk' : st.killed = false := by
          revert hk
          cases st.killed <;> simp
        simp only [testStreamStep, hk', Bool.false_eq_true, if_false,
          hnone] at htrue
        cases Option.some.inj htrue
  · intro st hnone
    simp only [testStreamStep, hnone]
    exact ⟨rfl, rfl⟩
  · intro st code hnone hc
    simp only [testStreamStep, hnone]
    rw [show decide (code = some 0) = false from decide_eq_false hc]
  · intro st hnone
    constructor
    · simp only [testStreamStep, hnone]
    · by_cases hk : st.killed
      · simp only [testStreamStep, hk, if_true, hnone]
      · have hk' : st.killed = false := by
          revert hk
          cases st.killed <;> simp
        simp only [testStreamStep, hk', Bool.false_eq_true, if_false, hnone]
  · intro evs hmem
    exact probeRun_timeout_settles evs probeInit hmem
  · intro evs
    exact probeRun_inv evs probeInit (by intro hh; cases hh)

/-- Witness for C7 (amended): each part at concrete inputs. -/
theorem C7_witness :
    (ProbeEv.stderrData true = ProbeEv.stderrData true ∨
      ProbeEv.stderrData true = ProbeEv.closed (some 0)) ∧
    ((testStreamStep probeInit (ProbeEv.stderrData true)).settled =
        some true ∧
      (testStreamStep probeInit (ProbeEv.stderrData true)).killCalls =
        probeInit.killCalls + 1) ∧
    (testStreamStep probeInit (ProbeEv.closed (some 1))).settled =
      some false ∧
    ((testStreamStep probeInit ProbeEv.failed).settled = some false ∧
      (testStreamStep probeInit ProbeEv.timeout).settled = some false) ∧
    (probeRun probeInit [ProbeEv.stderrData false, ProbeEv.timeout]).settled.isSome =
      true ∧
    ((probeRun probeInit [ProbeEv.timeout]).killed ||
     (probeRun probeInit [ProbeEv.timeout]).exited ||
     (probeRun probeInit [ProbeEv.timeout]).errored) = true :=
  ⟨C7_amended.1 probeInit (ProbeEv.stderrData true) rfl (by decide),
   C7_amended.2.1 probeInit rfl,
   C7_amended.2.2.1 probeInit (some 1) rfl (by decide),
   C7_amended.2.2.2.1 probeInit rfl,
   C7_amended.2.2.2.2.1 [ProbeEv.stderrData false, ProbeEv.timeout]
     (by decide),
   C7_amended.2.2.2.2.2 [ProbeEv.timeout] (by decide)⟩

/-! ## Cleanup and registry-preservation lemmas (for C8, C9) -/

theorem cleanup_dirs_eq (st : FFmpegState) :
    (cleanup st).dirs =
      (st.activeStreams.foldl cleanupStreamEntry st).dirs := by
  unfold cleanup
  exact (foldRecs_fields _ _).2.2.2

theorem startHLSStream_active_cases (st : FFmpegState) (streamId : String)
    (o : StreamOptions) :
    (startHLSStream st streamId o).1.activeStreams = st.activeStreams ∨
    (startHLSStream st streamId o).1.activeStreams =
      aset st.activeStreams streamId st.streams.length := by
  cases hl : alookup st.activeStreams streamId with
  | none =>
    right
    simp only [startHLSStream, hl]
    rfl
  | some pid' =>
    cases hg : nth st.streams pid' with
    | none =>
      right
      simp only [startHLSStream, hl, hg]
      rfl
    | some t =>
      by_cases hr : t.status = StreamStatus.running
      · left
        rw [startHLSStream_running_eq st streamId o pid' t hl hg hr]
      · right
        rw [startHLSStream_not_running_spawn st streamId o pid' t hl hg hr]
        rfl

theorem stopStream_active_cases (st : FFmpegState) (streamId : String) :
    (stopStream st streamId).1.activeStreams = st.activeStreams ∨
    (stopStream st streamId).1.activeStreams =
      aerase st.activeStreams streamId := by
  cases hl : alookup st.activeStreams streamId with
  | none =>
    left
    simp only [stopStream, hl]
  | some pid' =>
    cases hg : nth st.streams pid' with
    | none =>
      left
      simp only [stopStream, hl, hg]
    | some t =>
      by_cases hv : t.viewers - 1 = 0
      · right
        simp only [stopStream, hl, hg]
        rw [if_pos hv]
      · left
        simp only [stopStream, hl, hg]
        rw [if_neg hv]

/-- C8.  After `cleanup()`, both registries are empty; every stream process
that was registered and had not already exited now carries `killed = true`
(it was signalled, or had been signalled before); every registered stream's
output directory has been removed; and likewise every registered recording
process that had not already exited has been signalled. -/
theorem C8_cleanup_shutdown (st : FFmpegState) :
    (cleanup st).activeStreams = [] ∧
    (cleanup st).recordingProcesses = [] ∧
    (∀ (streamId : String) (pid : Nat) (s : StreamInfo),
        (streamId, pid) ∈ st.activeStreams →
        nth st.streams pid = some s → s.exited = false →
        ∃ s', nth (cleanup st).streams pid = some s' ∧ s'.killed = true) ∧
    (∀ (streamId : String) (pid : Nat),
        (streamId, pid) ∈ st.activeStreams →
        streamId ∉ (cleanup st).dirs) ∧
    (∀ (recId : String) (ridx : Nat) (r : RecProc),
        (recId, ridx) ∈ st.recordingProcesses →
        nth st.recProcs ridx = some r → r.exited = false →
        ∃ r', nth (cleanup st).recProcs ridx = some r' ∧ r'.killed = true) := by
  refine ⟨(foldRecs_fields _ _).2.1, rfl, ?_, ?_, ?_⟩
  · intro streamId pid s hmem h hex
    rw [cleanup_streams_eq]
    exact foldStreams_killed _ _ streamId _ _ hmem h hex
  · intro streamId pid hmem
    rw [cleanup_dirs_eq]
    exact foldStreams_dirs_out _ _ _ _ hmem
  · intro recId ridx r hmem h hex
    have hm2 : (recId, ridx) ∈
        ({ (st.activeStreams.foldl cleanupStreamEntry st) with
            activeStreams := ([] : List (String × Nat)) } :
          FFmpegState).recordingProcesses := by
      show (recId, ridx) ∈
        (st.activeStreams.foldl cleanupStreamEntry st).recordingProcesses
      rw [(foldStreams_fields _ _).2.2]
      exact hmem
    have h2 : nth
        ({ (st.activeStreams.foldl cleanupStreamEntry st) with
            activeStreams := ([] : List (String × Nat)) } :
          FFmpegState).recProcs ridx = some r := by
      show nth (st.activeStreams.foldl cleanupStreamEntry st).recProcs ridx =
        some r
      rw [(foldStreams_fields _ _).2.1]
      exact h
    exact foldRecs_killed _ _ recId _ _ hm2 h2 hex

/-- The concrete state used by the C8 witness: one live stream session and
one live recording process registered. -/
def stC8 : FFmpegState :=
  { streams := [sharedInfo 1], activeStreams := [("cam1", 0)],
    recProcs := [{ killed := false, exited := false }],
    recordingProcesses := [("rec1", 0)], kills := [], dirs := ["cam1"] }

/-- Witness for C8 at the concrete state `stC8`. -/
theorem C8_witness :
    (cleanup stC8).activeStreams = [] ∧
    (cleanup stC8).recordingProcesses = [] ∧
    (∃ s', nth (cleanup stC8).streams 0 = some s' ∧ s'.killed = true) ∧
    "cam1" ∉ (cleanup stC8).dirs ∧
    (∃ r', nth (cleanup stC8).recProcs 0 = some r' ∧ r'.killed = true) := by
  have h := C8_cleanup_shutdown stC8
  exact ⟨h.1, h.2.1,
    h.2.2.1 "cam1" 0 (sharedInfo 1) (by decide) (by decide) (by decide),
    h.2.2.2.1 "cam1" 0 (by decide),
    h.2.2.2.2 "rec1" 0 { killed := false, exited := false } (by decide)
      (by decide) (by decide)⟩

/-- C9 counterexample.  The claim says the terminal-status session keeps
being returned indefinitely until a later release for that id or a global
shutdown removes it.  But an acquire for the same id also ends it with no
release and no shutdown involved: on a terminal entry `startHLSStream`
takes the spawn path and `Map.set` (line 136) replaces the binding with a
fresh `'starting'` session, so `getStreamInfo` stops returning the
terminal session. -/
theorem C9_counterexample :
    getStreamInfo stTerm "cam1" = some termInfo ∧
    isTerminal termInfo.status = true ∧
    getStreamInfo (step stTerm (Ev.acq "cam1" oA)) "cam1" =
      some { id := "cam1", rtspUrl := "rtsp://cam1",
             status := StreamStatus.starting, startTime := 1,
             outputPath := "/streams/cam1/playlist.m3u8", viewers := 1,
             killed := false, exited := false } ∧
    getStreamInfo (step stTerm (Ev.acq "cam1" oA)) "cam1" ≠
      some termInfo := by decide

/-- C9 (amended).  When a stream's process exits on its own, the `close`
handler does NOT remove the session from the registry: the session stays
registered, its status becomes `'stopped'` on exit code 0 and `'error'`
otherwise, and `getStreamInfo` / `getActiveStreams` keep returning this
terminal-status session; the registry binding for the id survives every
event other than a `stopStream` for that id, the global `cleanup`, or an
acquire for that id — the acquire being the one further way the terminal
session stops being returned, by replacement with a fresh session rather
than by removal. -/
theorem C9_self_exit_keeps_session :
    (∀ (st : FFmpegState) (streamId : String) (pid : Nat) (s : StreamInfo)
        (code : Option Int),
        alookup st.activeStreams streamId = some pid →
        nth st.streams pid = some s →
        getStreamInfo (step st (Ev.closed pid code)) streamId =
          some { s with
                   status := if code = some 0 then StreamStatus.stopped
                             else StreamStatus.error,
                   exited := true } ∧
        ({ s with
             status := if code = some 0 then StreamStatus.stopped
                       else StreamStatus.error,
             exited := true } : StreamInfo) ∈
          getActiveStreams (step st (Ev.closed pid code))) ∧
    (∀ (st : FFmpegState) (e : Ev) (streamId : String) (pid : Nat),
        alookup st.activeStreams streamId = some pid →
        (∀ o, e ≠ Ev.acq streamId o) →
        e ≠ Ev.rel streamId →
        e ≠ Ev.shutdown →
        alookup (step st e).activeStreams streamId = some pid) := by
  constructor
  · intro st streamId pid s code h1 h2
    have hnth : nth (closeStep st pid code).streams pid =
        some { s with
                 status := if code = some 0 then StreamStatus.stopped
                           else StreamStatus.error,
                 exited := true } := by
      unfold closeStep
      simp only [h2]
      exact nth_updAt_self _ _ _ (nth_some_lt _ _ _ h2)
    constructor
    · show getStreamInfo (closeStep st pid code) streamId = _
      unfold getStreamInfo
      simp only [closeStep_active, h1]
      exact hnth
    · show _ ∈ getActiveStreams (closeStep st pid code)
      have hmem : (streamId, pid) ∈ (closeStep st pid code).activeStreams := by
        rw [closeStep_active]
        exact alookup_mem _ _ _ h1
      unfold getActiveStreams
      exact List.mem_filterMap.mpr ⟨(streamId, pid), hmem, hnth⟩
  · intro st e streamId pid h1 hacq hrel hshut
    cases e with
    | acq id' o =>
      have hne : streamId ≠ id' := by
        intro hh
        exact hacq o (by rw [hh])
      rcases startHLSStream_active_cases st id' o with hc | hc
      · show alookup (startHLSStream st id' o).1.activeStreams streamId =
          some pid
        rw [hc]
        exact h1
      · show alookup (startHLSStream st id' o).1.activeStreams streamId =
          some pid
        rw [hc, alookup_aset_other _ _ _ _ hne]
        exact h1
    | rel id' =>
      have hne : streamId ≠ id' := by
        intro hh
        exact hrel (by rw [hh])
      rcases stopStream_active_cases st id' with hc | hc
      · show alookup (stopStream st id').1.activeStreams streamId = some pid
        rw [hc]
        exact h1
      · show alookup (stopStream st id').1.activeStreams streamId = some pid
        rw [hc, alookup_aerase_other _ _ _ hne]
        exact h1
    | stderr p m =>
      show alookup (stderrStep st p m).activeStreams streamId = some pid
      rw [stderrStep_active]
      exact h1
    | closed p c =>
      show alookup (closeStep st p c).activeStreams streamId = some pid
      rw [closeStep_active]
      exact h1
    | failed p =>
      show alookup (errorStep st p).activeStreams streamId = some pid
      rw [errorStep_active]
      exact h1
    | killTimer p =>
      show alookup (forceKillStep st p).activeStreams streamId = some pid
      rw [forceKillStep_active]
      exact h1
    | shutdown => exact absurd rfl hshut

/-- Witness for C9: the concrete running session whose process exits with
code 0 on its own stays registered with status `'stopped'`, and a stderr
chunk of another process leaves the binding untouched. -/
theorem C9_witness :
    (getStreamInfo (step (midC1 2) (Ev.closed 0 (some 0))) "cam1" =
        some { sharedInfo 2 with status := StreamStatus.stopped, exited := true } ∧
      ({ sharedInfo 2 with status := StreamStatus.stopped, exited := true } :
          StreamInfo) ∈
        getActiveStreams (step (midC1 2) (Ev.closed 0 (some 0)))) ∧
    alookup (step (midC1 2) (Ev.stderr 5 true)).activeStreams "cam1" =
      some 0 :=
  ⟨⟨by
      have h := (C9_self_exit_keeps_session.1 (midC1 2) "cam1" 0
        (sharedInfo 2) (some 0) (by decide) (by decide)).1
      exact h,
    by
      have h := (C9_self_exit_keeps_session.1 (midC1 2) "cam1" 0
        (sharedInfo 2) (some 0) (by decide) (by decide)).2
      exact h⟩,
   C9_self_exit_keeps_session.2 (midC1 2) (Ev.stderr 5 true) "cam1" 0
     (by decide) (fun o h => Ev.noConfusion h) (fun h => Ev.noConfusion h)
     (fun h => Ev.noConfusion h)⟩

end CCTV
